import Mathlib

/-!
Verification of the Dockpanel system-management core (dockpanel.py, foxden.py).

Strings from the Python source are embedded as `List Char`; Python string
operations (`strip`, `split`, `in`, `startswith`, `int(...)`) are embedded as
executable functions on `List Char`.  Each Python function relevant to the
claims is translated into a Lean definition of the same name (modulo a few
leading underscores Lean style drops); stateful loops become explicit state
passing, and a Python `except` that swallows an exception is made visible as a
`Bool` flag or an aborted fold.
-/

/-- A line (or any string) from the Python source, as a list of characters. -/
abbrev Line := List Char

/-- The single-quote character, used by the f-strings in the source. -/
def squote : Char := Char.ofNat 39

/-- Python `str.strip()`: remove leading and trailing whitespace. -/
def pyStrip (l : Line) : Line :=
  ((l.dropWhile Char.isWhitespace).reverse.dropWhile Char.isWhitespace).reverse

/-- Python `str.split()` with no separator: split on whitespace runs, dropping
empty fields. -/
def pyWords (l : Line) : List Line :=
  (l.splitOnP Char.isWhitespace).filter (fun w => w ≠ [])

/-- Python `int(...)` on a non-negative decimal string: `some` of the value on
an all-digit (whitespace-trimmed) string, `none` (a `ValueError`) otherwise. -/
def pyInt (l : Line) : Option Nat :=
  let t := pyStrip l
  if t ≠ [] ∧ t.all Char.isDigit then
    some (t.foldl (fun a c => a * 10 + (c.toNat - 48)) 0)
  else none

/-! ## Execution gateway: `run_command` and `run_sudo_command` (dockpanel.py 78-100)

`subprocess.run(cmd, shell=shell, ...)` is embedded by its observable outcome:
it either completes with captured stdout/stderr/returncode, raises
`TimeoutExpired`, or raises some other exception carrying a message. -/

/-- Outcome of the `subprocess.run` call inside `run_command`. -/
inductive ProcOutcome where
  | completed (stdout stderr : Line) (returncode : Int)
  | timedOut
  | raised (msg : Line)
deriving DecidableEq

/-- What `run_command` hands to `subprocess.run`: the command string together
with the `shell` flag (default `True` in the source). -/
structure SpawnRequest where
  cmd : Line
  shell : Bool
deriving DecidableEq

/-- The spawn request issued by `run_command cmd` when called with its default
arguments (`shell: bool = True`), dockpanel.py line 78. -/
def run_command_request (cmd : Line) : SpawnRequest := ⟨cmd, true⟩

/-- `run_command` (dockpanel.py 78-92): returns `(stdout.strip(), stderr.strip(),
returncode)` on completion, `("", "Command timed out", 1)` on
`subprocess.TimeoutExpired`, and `("", str(e), 1)` on any other exception. -/
def run_command (o : ProcOutcome) : Line × Line × Int :=
  match o with
  | .completed out err code => (pyStrip out, pyStrip err, code)
  | .timedOut => ([], "Command timed out".toList, 1)
  | .raised msg => ([], msg, 1)

/-- `run_sudo_command` (dockpanel.py 94-100): the command string it builds and
passes to `run_command`.  With a password it is
`echo '<password>' | sudo -S <cmd>`; without, `sudo <cmd>`. -/
def run_sudo_command_cmd (cmd : Line) (password : Option Line) : Line :=
  match password with
  | some pw =>
      "echo ".toList ++ [squote] ++ pw ++ [squote] ++ " | sudo -S ".toList ++ cmd
  | none => "sudo ".toList ++ cmd

/-! ## Repository manager command construction (dockpanel.py 285-328) -/

/-- The apt sources file path `f"/etc/apt/sources.list.d/{repo_name}.list"`
built by `add_repository` (dockpanel.py 293). -/
def apt_sources_file (repo_name : Line) : Line :=
  "/etc/apt/sources.list.d/".toList ++ repo_name ++ ".list".toList

/-- The shell command `f"echo 'deb {repo_url}' > {sources_file}"` built by
`add_repository` for the apt backend (dockpanel.py 294). -/
def apt_add_repo_cmd (repo_url repo_name : Line) : Line :=
  "echo ".toList ++ [squote] ++ "deb ".toList ++ repo_url ++ [squote]
    ++ " > ".toList ++ apt_sources_file repo_name

/-- The command `f"apt install -y {package}"` built by
`PackageManager.install_package` for the apt backend (dockpanel.py 1128). -/
def apt_install_cmd (package : Line) : Line :=
  "apt install -y ".toList ++ package

/-! ## Theorems for claims C1, C2, C4, C10 -/

/-- C10: `run_command` is total: every outcome of the underlying spawn maps to a
`(stdout, stderr, returncode)` triple; a completed process yields its stripped
output, a timeout yields `("", "Command timed out", 1)`, any other exception
yields `("", message, 1)`; hence every non-completed failure mode collapses to
return code 1 with empty stdout. -/
theorem c10_run_command_total :
    (∀ out err code, run_command (.completed out err code) = (pyStrip out, pyStrip err, code)) ∧
    run_command .timedOut = ([], "Command timed out".toList, 1) ∧
    (∀ msg, run_command (.raised msg) = ([], msg, 1)) ∧
    (∀ o : ProcOutcome, (∀ out err code, o ≠ .completed out err code) →
      (run_command o).1 = [] ∧ (run_command o).2.2 = 1) := by
  refine ⟨fun _ _ _ => rfl, rfl, fun _ => rfl, fun o h => ?_⟩
  cases o with
  | completed out err code => exact absurd rfl (h out err code)
  | timedOut => exact ⟨rfl, rfl⟩
  | raised msg => exact ⟨rfl, rfl⟩

/-- Witness for C10 at the concrete timed-out outcome. -/
theorem c10_run_command_total_witness :
    (run_command .timedOut).1 = [] ∧ (run_command .timedOut).2.2 = 1 :=
  c10_run_command_total.2.2.2 .timedOut (fun _ _ _ h => ProcOutcome.noConfusion h)

/-- C4 counterexample: the result `run_command` returns on a timeout is
*identical* to the result of an ordinary process that exits with code 1 and
stderr "Command timed out" — there is no distinct timed-out flag and no
`TimeoutError` reaches the caller, so the two are indistinguishable. -/
theorem c4_timeout_indistinguishable :
    run_command .timedOut
      = run_command (.completed [] "Command timed out".toList 1) := by decide

/-- C4 amended: on timeout `run_command` swallows `TimeoutExpired` and returns
the bare triple `("", "Command timed out", 1)` — return code 1 and a fixed
stderr string, not a distinct timed-out indication. -/
theorem c4_timeout_result :
    run_command .timedOut = ([], "Command timed out".toList, 1) := rfl

/-- C1: the code violates the credential-handling property: `run_sudo_command`
embeds the password verbatim into the shell command string
`echo '<password>' | sudo -S <cmd>`, which is then handed to a
shell-interpreting spawn (`shell = true`); evaluated at the concrete failing
input (password "hunter2", command "apt update"). -/
theorem c1_password_embedded_in_command :
    run_sudo_command_cmd "apt update".toList (some "hunter2".toList)
      = ("echo ".toList ++ [squote] ++ "hunter2".toList ++ [squote]
          ++ " | sudo -S apt update".toList) ∧
    "hunter2".toList <:+:
      run_sudo_command_cmd "apt update".toList (some "hunter2".toList) ∧
    (run_command_request
      (run_sudo_command_cmd "apt update".toList (some "hunter2".toList))).shell = true := by
  decide

/-- C2: the code violates the argument-vector property: `add_repository`
interpolates the user-supplied URL into a shell string which `run_command`
spawns with `shell = true`, so shell metacharacters in the URL reach the shell
verbatim; evaluated at the concrete failing input
`repo_url = "http://mirror.example/repo; rm -rf /tmp"`. -/
theorem c2_shell_interpolation :
    (run_command_request
      (run_sudo_command_cmd
        (apt_add_repo_cmd "http://mirror.example/repo; rm -rf /tmp".toList
          "custom".toList) none)).shell = true ∧
    "; rm -rf /tmp".toList <:+:
      (run_command_request
        (run_sudo_command_cmd
          (apt_add_repo_cmd "http://mirror.example/repo; rm -rf /tmp".toList
            "custom".toList) none)).cmd := by
  decide

/-! ## Kernel manager (dockpanel.py 585-675) -/

/-- One entry of `KernelManager.get_installed_kernels()`: the dict
`{'version': ..., 'path': ..., 'current': ..., 'size': ...}`. -/
structure KernelInfo where
  version : Line
  path : Line
  current : Bool
  size : Nat
deriving DecidableEq

/-- The selection loop of `remove_old_kernels` (dockpanel.py 638-645): walk the
kernel list with a `kept` counter; the current kernel is skipped, the first
`keep_count` non-current kernels are kept, every later non-current kernel goes
into `to_remove`. -/
def select_old_kernels (keep_count : Nat) : List KernelInfo → Nat → List KernelInfo
  | [], _ => []
  | k :: ks, kept =>
    if k.current then select_old_kernels keep_count ks kept
    else if kept < keep_count then select_old_kernels keep_count ks (kept + 1)
    else k :: select_old_kernels keep_count ks kept

/-- The removal set computed by `KernelManager.remove_old_kernels(keep_count)`
from the listed kernels (counter starts at 0). -/
def remove_old_kernels_set (keep_count : Nat) (kernels : List KernelInfo) : List KernelInfo :=
  select_old_kernels keep_count kernels 0

lemma select_old_kernels_all_noncurrent (keep_count : Nat) :
    ∀ (ks : List KernelInfo) (kept : Nat),
      (select_old_kernels keep_count ks kept).all (fun k => !k.current) = true := by
  intro ks
  induction ks with
  | nil => intro kept; rfl
  | cons k ks ih =>
    intro kept
    by_cases hc : k.current
    · simp [select_old_kernels, hc, ih]
    · by_cases hk : kept < keep_count
      · simp [select_old_kernels, hc, hk, ih]
      · simp [select_old_kernels, hc, hk, ih]

lemma select_old_kernels_length (keep_count : Nat) :
    ∀ (ks : List KernelInfo) (kept : Nat),
      (select_old_kernels keep_count ks kept).length
        = (ks.filter (fun k => !k.current)).length - (keep_count - kept) := by
  intro ks
  induction ks with
  | nil => intro kept; simp [select_old_kernels]
  | cons k ks ih =>
    intro kept
    by_cases hc : k.current
    · simp [select_old_kernels, hc, List.filter_cons, ih]
    · have hc' : k.current = false := by simpa using hc
      by_cases hk : kept < keep_count
      · simp only [select_old_kernels, hc', Bool.false_eq_true, if_false, if_pos hk,
          List.filter_cons, Bool.not_false, if_true, List.length_cons, ih]
        omega
      · simp only [select_old_kernels, hc', Bool.false_eq_true, if_false, if_neg hk,
          List.filter_cons, Bool.not_false, if_true, List.length_cons, ih]
        omega

/-- C3: `remove_old_kernels(keep_count)` never selects a kernel marked current
for removal, and selects exactly `totalNonCurrent - keep_count` kernels
(truncated at 0, i.e. `max(0, totalNonCurrent - keep_count)`), for every kernel
list and every `keep_count ≥ 0`. -/
theorem c3_remove_old_kernels (keep_count : Nat) (kernels : List KernelInfo) :
    (remove_old_kernels_set keep_count kernels).all (fun k => !k.current) = true ∧
    (remove_old_kernels_set keep_count kernels).length
      = (kernels.filter (fun k => !k.current)).length - keep_count := by
  refine ⟨select_old_kernels_all_noncurrent keep_count kernels 0, ?_⟩
  simpa using select_old_kernels_length keep_count kernels 0

/-! ## Service status parsing: `SystemServiceManager.get_service_status`
(dockpanel.py 722-763) -/

/-- The `status` dict built by `get_service_status`. -/
structure ServiceStatus where
  name : Line
  loaded : Bool
  active : Bool
  enabled : Bool
  description : Line
  main_pid : Nat
  memory : Nat
  tasks : Nat
deriving DecidableEq

/-- The initial `status` dict (dockpanel.py 724-733). -/
def init_service_status (name : Line) : ServiceStatus :=
  ⟨name, false, false, false, [], 0, 0, 0⟩

/-- The line loop of `get_service_status` (dockpanel.py 740-758).  Each line
with an `=` is split at the first `=`; recognized keys update the status.
`int(...)` failures raise, which the source catches around the whole loop, so
the loop returns the status accumulated so far together with an ok flag
(`false` = an exception was raised and swallowed). -/
def service_show_loop : List Line → ServiceStatus → ServiceStatus × Bool
  | [], st => (st, true)
  | l :: ls, st =>
    if l.contains '=' then
      let key := l.takeWhile (fun c => c ≠ '=')
      let value := (l.dropWhile (fun c => c ≠ '=')).drop 1
      if key = "LoadState".toList then
        service_show_loop ls { st with loaded := decide (value ≠ "not-found".toList) }
      else if key = "ActiveState".toList then
        service_show_loop ls { st with active := decide (value = "active".toList) }
      else if key = "UnitFileState".toList then
        service_show_loop ls { st with enabled := decide (value = "enabled".toList) }
      else if key = "Description".toList then
        service_show_loop ls { st with description := value }
      else if key = "MainPID".toList then
        match pyInt value with
        | some n => service_show_loop ls { st with main_pid := n }
        | none => (st, false)
      else if key = "MemoryCurrent".toList then
        if value ≠ "[not set]".toList then
          match pyInt value with
          | some n => service_show_loop ls { st with memory := n / 1024 / 1024 }
          | none => (st, false)
        else service_show_loop ls st
      else if key = "TasksCurrent".toList then
        if value ≠ "[not set]".toList then
          match pyInt value with
          | some n => service_show_loop ls { st with tasks := n }
          | none => (st, false)
        else service_show_loop ls st
      else service_show_loop ls st
    else service_show_loop ls st

/-- `get_service_status` applied to the raw stdout of `systemctl show <name>`:
split on newlines and run the line loop on the initial status. -/
def get_service_status (name : Line) (stdout : Line) : ServiceStatus × Bool :=
  service_show_loop (stdout.splitOn '\n') (init_service_status name)

/-- `systemctl show` fixture whose MemoryCurrent is 104857600 bytes. -/
def show_fixture_bytes : Line :=
  "LoadState=loaded\nActiveState=active\nUnitFileState=enabled\nDescription=A test service\nMainPID=1234\nMemoryCurrent=104857600\nTasksCurrent=5".toList

/-- `systemctl show` fixture whose MemoryCurrent is `[not set]`. -/
def show_fixture_notset : Line :=
  "LoadState=loaded\nActiveState=inactive\nUnitFileState=disabled\nDescription=A test service\nMainPID=0\nMemoryCurrent=[not set]\nTasksCurrent=[not set]".toList

/-- C5: parsing `systemctl show` output containing `MemoryCurrent=104857600`
yields memory = 100 (bytes → MB), and output containing
`MemoryCurrent=[not set]` yields memory = 0 with no exception raised (the ok
flag stays true and the other fields parse normally). -/
theorem c5_memory_current_parse :
    (get_service_status "nginx.service".toList show_fixture_bytes).1.memory = 100 ∧
    (get_service_status "nginx.service".toList show_fixture_bytes).2 = true ∧
    (get_service_status "nginx.service".toList show_fixture_notset).1.memory = 0 ∧
    (get_service_status "nginx.service".toList show_fixture_notset).2 = true ∧
    (get_service_status "nginx.service".toList show_fixture_bytes).1.active = true ∧
    (get_service_status "nginx.service".toList show_fixture_notset).1.loaded = true := by
  decide

/-! ## Backend detection: `detect_system` (dockpanel.py 45-75) and
`SystemAdminApp._detect_package_manager` (foxden.py 65-73)

Both are embedded as pure functions of the host probe: `pathExists` models
`os.path.exists` and `which` models `shutil.which`. -/

/-- The OS family reported by `platform.system()`. -/
inductive OSFamily where
  | Linux
  | Darwin
  | otherOS
deriving DecidableEq

/-- The package-manager probe of `detect_system` (dockpanel.py 57-73): on
Linux, `/usr/bin/apt`, `/usr/bin/dnf`, `/usr/bin/zypper`, `/usr/bin/pacman`
in that order; on Darwin, the two brew install paths; `none` (the global
stays `None`) when nothing is found or the OS family is unrecognized. -/
def detect_system (system : OSFamily) (pathExists : Line → Bool) : Option Line :=
  match system with
  | .Linux =>
    if pathExists "/usr/bin/apt".toList then some "apt".toList
    else if pathExists "/usr/bin/dnf".toList then some "dnf".toList
    else if pathExists "/usr/bin/zypper".toList then some "zypper".toList
    else if pathExists "/usr/bin/pacman".toList then some "pacman".toList
    else none
  | .Darwin =>
    if pathExists "/usr/local/bin/brew".toList || pathExists "/opt/homebrew/bin/brew".toList
    then some "brew".toList else none
  | .otherOS => none

/-- The probe order of foxden's `_detect_package_manager` (foxden.py 70):
`["apt", "dnf", "pacman", "zypper"]`. -/
def foxden_pm_order : List Line :=
  ["apt".toList, "dnf".toList, "pacman".toList, "zypper".toList]

/-- The `for pm in [...]: if shutil.which(pm): return pm` loop of
`_detect_package_manager`, falling through to `"unknown"`. -/
def first_which (which : Line → Bool) : List Line → Line
  | [] => "unknown".toList
  | pm :: pms => if which pm then pm else first_which which pms

/-- foxden's `_detect_package_manager` (foxden.py 65-73): always `"brew"` on
Darwin, first `which` hit over `foxden_pm_order` on Linux, `"unknown"`
otherwise — never an error. -/
def detect_package_manager (system : OSFamily) (which : Line → Bool) : Line :=
  match system with
  | .Darwin => "brew".toList
  | .Linux => first_which which foxden_pm_order
  | .otherOS => "unknown".toList

/-- Modelled from the spec's words for comparison: the claimed fixed probe
priority order apt, dnf, zypper, pacman. -/
def claimed_probe_order : List Line :=
  ["apt".toList, "dnf".toList, "zypper".toList, "pacman".toList]

/-- Modelled from the spec's words: select the first present package manager
in `claimed_probe_order`, `none` when no probe hits. -/
def spec_first_present (present : Line → Bool) : List Line → Option Line
  | [] => none
  | pm :: pms => if present pm then some pm else spec_first_present present pms

/-- A host on which only pacman and zypper binaries are present. -/
def which_pacman_zypper (pm : Line) : Bool :=
  pm = "pacman".toList ∨ pm = "zypper".toList

/-- C7 counterexample: on a Linux host that has both zypper and pacman (and
neither apt nor dnf), foxden's `_detect_package_manager` selects pacman,
whereas the claimed priority order apt, dnf, zypper, pacman selects zypper —
the code does not probe in the claimed order. -/
theorem c7_foxden_order_counterexample :
    detect_package_manager .Linux which_pacman_zypper = "pacman".toList ∧
    spec_first_present which_pacman_zypper claimed_probe_order = some "zypper".toList ∧
    "pacman".toList ≠ "zypper".toList := by
  decide

/-- C7 amended: dockpanel's `detect_system` does probe `/usr/bin/<pm>` in the
claimed order apt, dnf, zypper, pacman and selects the first present (proved as
a refinement of the spec-modelled probe), with `none` — not an error — when no
probe hits; foxden's `_detect_package_manager` probes apt, dnf, pacman, zypper
(zypper last) and returns the non-error value "unknown" when none is found. -/
theorem c7_detection_order (pathExists : Line → Bool) (which : Line → Bool) :
    detect_system .Linux pathExists
      = spec_first_present (fun pm => pathExists ("/usr/bin/".toList ++ pm))
          claimed_probe_order ∧
    detect_package_manager .Linux which = first_which which foxden_pm_order ∧
    detect_system .Linux (fun _ => false) = none ∧
    detect_system .otherOS pathExists = none ∧
    detect_package_manager .Linux (fun _ => false) = "unknown".toList := by
  exact ⟨rfl, rfl, rfl, rfl, rfl⟩

/-! ## Repository toggle and listing for the apt backend
(`RepositoryManager.toggle_repository` dockpanel.py 383-444,
`RepositoryManager.get_repositories` dockpanel.py 214-282)

A sources file is a list of raw lines.  `toggle_repository` reads the lines,
transforms each line containing the repo name (uncomment on enable, comment on
disable) and writes the transformed lines back; `get_repositories` strips each
line, skips empty and `#`-prefixed lines, and records lines containing
`"deb "`. -/

/-- The per-line body of the toggle loop (dockpanel.py 399-407): if the line
contains the repo name, `enable` removes a leading `#` from a `#deb ` line and
`not enable` prepends `#` to a `deb ` line; otherwise the line is unchanged. -/
def toggle_line (repo_name : Line) (enable : Bool) (l : Line) : Line :=
  if repo_name <:+: l then
    if enable = true ∧ "#deb ".toList <+: l then l.drop 1
    else if enable = false ∧ "deb ".toList <+: l then '#' :: l
    else l
  else l

/-- The effect of `toggle_repository` on the content of one sources file: every
line is passed through `toggle_line` (the file is rewritten when any line
changed, and unchanged otherwise, which is the same content either way). -/
def toggle_repository_file (repo_name : Line) (enable : Bool) (lines : List Line) : List Line :=
  lines.map (toggle_line repo_name enable)

/-- One entry of `get_repositories` for the apt backend: the `name` and
`enabled` fields of the dict built at dockpanel.py 232-238. -/
structure RepoEntry where
  name : Line
  enabled : Bool
deriving DecidableEq

/-- The per-line body of the apt listing loop (dockpanel.py 226-238): strip the
line, skip empty and `#`-prefixed lines, record lines containing `"deb "` with
`name = line.replace('#','').strip()` and
`enabled = not line.startswith('#deb ')`. -/
def parse_repo_line (raw : Line) : Option RepoEntry :=
  let s := pyStrip raw
  if s ≠ [] ∧ ¬ ("#".toList <+: s) then
    if "deb ".toList <:+: s then
      some ⟨pyStrip (s.filter (fun c => c ≠ '#')), decide (¬ ("#deb ".toList <+: s))⟩
    else none
  else none

/-- `get_repositories` for the apt backend over the lines of one sources
file. -/
def get_repositories_apt (lines : List Line) : List RepoEntry :=
  lines.filterMap parse_repo_line

lemma hdeb_cons : "#deb ".toList = '#' :: "deb ".toList := by decide

lemma deb_head : "deb ".toList = 'd' :: "eb ".toList := by decide

lemma infix_cons_elim {name t : Line} {a : Char} (h : name <:+: a :: t)
    (hn : a ∉ name) : name <:+: t := by
  obtain ⟨s, u, hsu⟩ := h
  cases s with
  | nil =>
    cases name with
    | nil => exact List.nil_infix
    | cons c cs =>
      simp only [List.nil_append, List.cons_append, List.cons.injEq] at hsu
      obtain ⟨rfl, -⟩ := hsu
      exact absurd (List.mem_cons_self c cs) hn
  | cons b s' =>
    simp only [List.cons_append, List.cons.injEq] at hsu
    exact ⟨s', u, hsu.2⟩

lemma toggle_line_comp {repo_name : Line} (hn : '#' ∉ repo_name) (l : Line) :
    toggle_line repo_name false (toggle_line repo_name true l)
      = toggle_line repo_name false l := by
  by_cases h1 : repo_name <:+: l
  · by_cases h2 : "#deb ".toList <+: l
    · obtain ⟨r, hr⟩ := h2
      rw [hdeb_cons, List.cons_append] at hr
      subst hr
      have hpre : "#deb ".toList <+: '#' :: ("deb ".toList ++ r) := by
        rw [hdeb_cons]
        exact ⟨r, rfl⟩
      have e1 : toggle_line repo_name true ('#' :: ("deb ".toList ++ r))
          = "deb ".toList ++ r := by
        unfold toggle_line
        rw [if_pos h1, if_pos ⟨rfl, hpre⟩]
        rfl
      rw [e1]
      have h1' : repo_name <:+: "deb ".toList ++ r := infix_cons_elim h1 hn
      have hdp : "deb ".toList <+: "deb ".toList ++ r := List.prefix_append _ _
      have hnot : ¬ ("#deb ".toList <+: "deb ".toList ++ r) := by
        intro hcon
        obtain ⟨u, hu⟩ := hcon
        rw [hdeb_cons, List.cons_append, deb_head, List.cons_append] at hu
        exact absurd (List.cons.inj hu).1 (by decide)
      have e2 : toggle_line repo_name false ("deb ".toList ++ r)
          = '#' :: ("deb ".toList ++ r) := by
        unfold toggle_line
        rw [if_pos h1', if_neg (fun hc => nomatch hc.1), if_pos ⟨rfl, hdp⟩]
      have hne : ¬ ("deb ".toList <+: '#' :: ("deb ".toList ++ r)) := by
        intro hcon
        obtain ⟨u, hu⟩ := hcon
        rw [deb_head, List.cons_append] at hu
        exact absurd (List.cons.inj hu).1 (by decide)
      have e3 : toggle_line repo_name false ('#' :: ("deb ".toList ++ r))
          = '#' :: ("deb ".toList ++ r) := by
        unfold toggle_line
        rw [if_pos h1, if_neg (fun hc => nomatch hc.1), if_neg (fun hc => hne hc.2)]
      rw [e2, e3]
    · have e1 : toggle_line repo_name true l = l := by
        unfold toggle_line
        rw [if_pos h1, if_neg (fun hc => h2 hc.2), if_neg (fun hc => nomatch hc.1)]
      rw [e1]
  · have e1 : toggle_line repo_name true l = l := by
      unfold toggle_line
      rw [if_neg h1]
    rw [e1]

/-- C8 counterexample: for the file line `deb http://repo.example main` the
repository is present in the listing with `enabled = true`; after
`Toggle(name, true)` followed by `Toggle(name, false)` the line is commented
out and the repository is absent from a subsequent listing — it is not
returned to its original observed enabled state. -/
theorem c8_toggle_listing_counterexample :
    get_repositories_apt ["deb http://repo.example main".toList]
      = [⟨"deb http://repo.example main".toList, true⟩] ∧
    get_repositories_apt
      (toggle_repository_file "http://repo.example".toList false
        (toggle_repository_file "http://repo.example".toList true
          ["deb http://repo.example main".toList])) = [] := by
  decide

/-- C8 amended: for a repo name containing no `#` (listed names never do),
`Toggle(true)` followed by `Toggle(false)` acts on an apt sources file exactly
like a single `Toggle(false)`: an originally commented (disabled) line returns
to its original state, while an originally enabled line ends commented out and
therefore absent from a subsequent `List`, which skips `#`-prefixed lines. -/
theorem c8_toggle_twice (repo_name : Line) (hn : '#' ∉ repo_name) (lines : List Line) :
    toggle_repository_file repo_name false
        (toggle_repository_file repo_name true lines)
      = toggle_repository_file repo_name false lines := by
  simp only [toggle_repository_file, List.map_map]
  exact List.map_congr_left (fun l _ => toggle_line_comp hn l)

/-- Witness for C8 at a concrete repo name and sources file. -/
theorem c8_toggle_twice_witness :
    toggle_repository_file "http://deb.debian.org/debian".toList false
        (toggle_repository_file "http://deb.debian.org/debian".toList true
          ["deb http://deb.debian.org/debian stable main".toList,
           "#deb http://deb.debian.org/debian stable contrib".toList])
      = toggle_repository_file "http://deb.debian.org/debian".toList false
          ["deb http://deb.debian.org/debian stable main".toList,
           "#deb http://deb.debian.org/debian stable contrib".toList] :=
  c8_toggle_twice "http://deb.debian.org/debian".toList (by decide) _

/-! ## Package listing parser: `PackageManager._parse_installed_list`
(dockpanel.py 1107-1120, apt branch) -/

/-- One `(name, version, description)` tuple produced by
`_parse_installed_list`. -/
structure PkgEntry where
  name : Line
  version : Line
  rest : Line
deriving DecidableEq

/-- The per-line body of `_parse_installed_list` for the apt backend
(dockpanel.py 1110-1115): non-blank lines starting with `ii` whose
whitespace-split has at least 3 fields yield
`(parts[1], parts[2], ' '.join(parts[3:]))`; all other lines yield nothing. -/
def parse_installed_line (l : Line) : Option PkgEntry :=
  if pyStrip l ≠ [] then
    if "ii".toList <+: l then
      match pyWords l with
      | _ :: p1 :: p2 :: ps => some ⟨p1, p2, List.intercalate [' '] ps⟩
      | _ => none
    else none
  else none

/-- `_parse_installed_list` for the apt backend over the split output lines:
collect the records of the lines that parse, skipping the rest. -/
def parse_installed_list (lines : List Line) : List PkgEntry :=
  lines.filterMap parse_installed_line

/-! ## Boot configuration parser: `BootManager.get_boot_config`
(dockpanel.py 476-536, systemd-boot branch)

The loop over `/boot/loader/loader.conf` lines can raise (from `int(...)` on a
malformed `timeout` value or from indexing `split()[1]`); the source catches
the exception around the *whole* function body, so a failure aborts everything
after it — including the later scan of `/boot/loader/entries` — while the
config accumulated so far is still returned. -/

/-- The `config` dict built by `get_boot_config`. -/
structure BootConfig where
  bootloader : Line
  default_entry : Line
  timeout : Nat
  entries : List Line
deriving DecidableEq

/-- The initial `config` dict (dockpanel.py 478-483). -/
def boot_config_init : BootConfig :=
  ⟨"Unknown".toList, "Unknown".toList, 0, []⟩

/-- One iteration of the loader.conf loop (dockpanel.py 514-520): a stripped
`default ` line sets the default entry to `line.split()[1]`, a `timeout ` line
sets the timeout to `int(line.split()[1])`; the `Bool` is false when the
iteration raised (bad index or `ValueError`). -/
def loader_conf_step (c : BootConfig) (l : Line) : BootConfig × Bool :=
  let s := pyStrip l
  if "default ".toList <+: s then
    match pyWords s with
    | _ :: w :: _ => ({ c with default_entry := w }, true)
    | _ => (c, false)
  else if "timeout ".toList <+: s then
    match pyWords s with
    | _ :: w :: _ =>
      match pyInt w with
      | some n => ({ c with timeout := n }, true)
      | none => (c, false)
    | _ => (c, false)
  else (c, true)

/-- The loader.conf loop: run the steps in order; a raising step aborts the
loop (and everything after it in the function body), returning the config
accumulated so far with the ok flag false. -/
def loader_conf_loop : List Line → BootConfig → BootConfig × Bool
  | [], c => (c, true)
  | l :: ls, c =>
    match loader_conf_step c l with
    | (c2, true) => loader_conf_loop ls c2
    | (c2, false) => (c2, false)

/-- `get_boot_config` for the systemd-boot branch: bootloader is set first,
then the loader.conf lines are processed, then — only if no exception was
raised — the `.conf` entry files are listed with their extension stripped
(dockpanel.py 511-527). -/
def get_boot_config_systemd (loaderLines : List Line) (entryFiles : List Line) : BootConfig :=
  let c0 := { boot_config_init with bootloader := "systemd-boot".toList }
  match loader_conf_loop loaderLines c0 with
  | (c, true) =>
      { c with entries :=
          ((entryFiles.filter (fun f => decide (".conf".toList <:+ f))).map
            (fun f => f.take (f.length - 5))) }
  | (c, false) => c

/-- A loader.conf line whose `timeout` value makes `int(...)` raise: stripped,
it is not a `default ` line, is a `timeout ` line, and its second
whitespace-field is not an integer. -/
def malformed_timeout_line (m : Line) : Prop :=
  ¬ ("default ".toList <+: pyStrip m) ∧ ("timeout ".toList <+: pyStrip m) ∧
    ∃ a w ws, pyWords (pyStrip m) = a :: w :: ws ∧ pyInt w = none

lemma loader_conf_step_malformed {m : Line} (hm : malformed_timeout_line m)
    (c : BootConfig) : loader_conf_step c m = (c, false) := by
  obtain ⟨h1, h2, a, w, ws, hww, hint⟩ := hm
  unfold loader_conf_step
  rw [if_neg h1, if_pos h2]
  simp only [hww, hint]

lemma loader_conf_loop_cons (l : Line) (ls : List Line) (c : BootConfig) :
    loader_conf_loop (l :: ls) c
      = match loader_conf_step c l with
        | (c2, true) => loader_conf_loop ls c2
        | (c2, false) => (c2, false) := rfl

lemma loader_conf_loop_cons_ok {l : Line} {c c2 : BootConfig}
    (h : loader_conf_step c l = (c2, true)) (ls : List Line) :
    loader_conf_loop (l :: ls) c = loader_conf_loop ls c2 := by
  rw [loader_conf_loop_cons, h]

lemma loader_conf_loop_cons_fail {l : Line} {c c2 : BootConfig}
    (h : loader_conf_step c l = (c2, false)) (ls : List Line) :
    loader_conf_loop (l :: ls) c = (c2, false) := by
  rw [loader_conf_loop_cons, h]

lemma loader_conf_loop_abort {m : Line} (hm : malformed_timeout_line m) :
    ∀ (ls : List Line) (c : BootConfig), (loader_conf_loop ls c).2 = true →
      ∀ (post : List Line),
        loader_conf_loop (ls ++ m :: post) c = ((loader_conf_loop ls c).1, false) := by
  intro ls
  induction ls with
  | nil =>
    intro c _ post
    show loader_conf_loop (m :: post) c = (c, false)
    rw [loader_conf_loop_cons_fail (loader_conf_step_malformed hm c)]
  | cons l ls ih =>
    intro c hok post
    rcases hstep : loader_conf_step c l with ⟨c2, ok⟩
    cases ok with
    | true =>
      rw [List.cons_append, loader_conf_loop_cons_ok hstep (ls ++ m :: post),
        loader_conf_loop_cons_ok hstep ls]
      rw [loader_conf_loop_cons_ok hstep ls] at hok
      exact ih c2 hok post
    | false =>
      rw [loader_conf_loop_cons_fail hstep ls] at hok
      exact absurd hok (by simp)

/-- C9 counterexample: in the systemd-boot branch of `get_boot_config`, the
malformed line `timeout abc` is not skipped: it aborts the rest of the parse,
so the following well-formed `default linux` line and the entry files are lost
(second conjunct: without the malformed line they are parsed). -/
theorem c9_malformed_line_aborts :
    get_boot_config_systemd ["timeout abc".toList, "default linux".toList]
        ["linux.conf".toList]
      = ⟨"systemd-boot".toList, "Unknown".toList, 0, []⟩ ∧
    get_boot_config_systemd ["default linux".toList] ["linux.conf".toList]
      = ⟨"systemd-boot".toList, "linux".toList, 0, ["linux".toList]⟩ := by
  decide

/-- C9 amended: the parsers are total and never raise, and partial results are
preferred over none — but malformed lines are not counted, and they are only
skipped in `_parse_installed_list` (dropping a malformed line leaves the other
records unchanged); in `get_boot_config` a line whose value makes `int(...)`
raise aborts the remaining parse, returning exactly the configuration
accumulated before the failure. -/
theorem c9_parser_tolerance :
    (∀ (pre post : List Line) (m : Line), parse_installed_line m = none →
      parse_installed_list (pre ++ m :: post) = parse_installed_list (pre ++ post)) ∧
    (∀ (ls : List Line) (c : BootConfig) (m : Line) (post : List Line),
      malformed_timeout_line m → (loader_conf_loop ls c).2 = true →
        loader_conf_loop (ls ++ m :: post) c = ((loader_conf_loop ls c).1, false)) := by
  constructor
  · intro pre post m hm
    simp [parse_installed_list, List.filterMap_append, List.filterMap_cons, hm]
  · intro ls c m post hm hok
    exact loader_conf_loop_abort hm ls c hok post

/-- Witness for C9 at a concrete malformed package line and a concrete
malformed loader.conf timeout line. -/
theorem c9_parser_tolerance_witness :
    parse_installed_list
        (["ii aaa 1.0 x".toList] ++ "garbage line".toList :: ["ii bbb 2.0 y".toList])
      = parse_installed_list (["ii aaa 1.0 x".toList] ++ ["ii bbb 2.0 y".toList]) ∧
    loader_conf_loop
        (["default linux".toList] ++ "timeout abc".toList :: ["default zzz".toList])
        boot_config_init
      = ((loader_conf_loop ["default linux".toList] boot_config_init).1, false) :=
  ⟨c9_parser_tolerance.1 _ _ _ (by decide),
   c9_parser_tolerance.2 _ _ _ _
     ⟨by decide, by decide, "timeout".toList, "abc".toList, [], by decide, by decide⟩
     (by decide)⟩
